import Mathlib

/-!
Shallow embedding of `src/weather_server.py` from the weather MCP server
repository, together with theorems settling the specification claims.

Modelling conventions:
* Python floats (coordinates, temperatures, wind speed, precipitation) are
  embedded as rationals (`ℚ`); float rendering in f-strings is embedded as
  the rational's `toString`.
* Python `datetime`/`date` values are embedded as their ISO strings: the code
  only parses them out of the JSON and prints them back with `isoformat()`.
* The network is a parameter `net : Request → HttpOutcome`; each client
  method returns a `TraceResult` recording the HTTP requests it issued
  together with its outcome, so "before any network call" and "exactly one
  request" are provable statements.
* Raised exceptions are embedded as `Except WeatherError`:
  `ValueError` ↦ `valueError`, `httpx.HTTPStatusError` ↦ `httpStatusError`,
  `RuntimeError` ↦ `runtimeError`, and every other exception (`KeyError`,
  pydantic `ValidationError`, transport failures) ↦ `otherError`.
* Pydantic `Field(..., ge, le)` constraints on `WeatherLocation` become
  proof fields of the structure; `WeatherLocation.construct` embeds pydantic
  construction (`none` models a raised `ValidationError`).
-/

/-- Geographic coordinates for a weather query (`class WeatherLocation`,
pydantic model with `ge`/`le` bounds on both fields). -/
structure WeatherLocation where
  latitude : ℚ
  longitude : ℚ
  latitude_ge : -90 ≤ latitude
  latitude_le : latitude ≤ 90
  longitude_ge : -180 ≤ longitude
  longitude_le : longitude ≤ 180

/-- Pydantic construction of a `WeatherLocation`: the field bounds are checked
at construction; `none` models a raised `ValidationError`. -/
def WeatherLocation.construct (latitude longitude : ℚ) : Option WeatherLocation :=
  if h : (-90 ≤ latitude ∧ latitude ≤ 90) ∧ (-180 ≤ longitude ∧ longitude ≤ 180) then
    some ⟨latitude, longitude, h.1.1, h.1.2, h.2.1, h.2.2⟩
  else
    none

/-- Current weather conditions at a location (`class CurrentWeather`).
The observation timestamp is embedded as its ISO string. -/
structure CurrentWeather where
  temperature : ℚ
  wind_speed : ℚ
  weather_code : Int
  conditions : String
  timestamp : String

/-- Forecast for a single day (`class DailyForecast`).
The calendar date is embedded as its ISO string. -/
structure DailyForecast where
  forecast_date : String
  temperature_min : ℚ
  temperature_max : ℚ
  precipitation : ℚ
  weather_code : Int
  conditions : String

/-- Multi-day forecast response (`class ForecastResponse`). -/
structure ForecastResponse where
  location : WeatherLocation
  forecasts : List DailyForecast

/-- The static WMO weather-code table (`WMO_CODES`), in source order.
The Python dict with distinct integer keys is embedded as an association
list; `List.lookup` returns the value of the first matching key. -/
def WMO_CODES : List (Int × String) :=
  [ (0, "Clear sky")
  , (1, "Mainly clear")
  , (2, "Partly cloudy")
  , (3, "Overcast")
  , (45, "Foggy")
  , (48, "Depositing rime fog")
  , (51, "Light drizzle")
  , (53, "Moderate drizzle")
  , (55, "Dense drizzle")
  , (56, "Light freezing drizzle")
  , (57, "Dense freezing drizzle")
  , (61, "Slight rain")
  , (63, "Moderate rain")
  , (65, "Heavy rain")
  , (66, "Light freezing rain")
  , (67, "Heavy freezing rain")
  , (71, "Slight snowfall")
  , (73, "Moderate snowfall")
  , (75, "Heavy snowfall")
  , (77, "Snow grains")
  , (80, "Slight rain showers")
  , (81, "Moderate rain showers")
  , (82, "Violent rain showers")
  , (85, "Slight snow showers")
  , (86, "Heavy snow showers")
  , (95, "Thunderstorm")
  , (96, "Thunderstorm with slight hail")
  , (99, "Thunderstorm with heavy hail") ]

/-- Convert a WMO weather code to a human-readable string
(`weather_code_to_conditions`): table lookup with the fallback
`f"Unknown (code {code})"` for unmapped codes. -/
def weather_code_to_conditions (code : Int) : String :=
  match WMO_CODES.lookup code with
  | some s => s
  | none => "Unknown (code " ++ toString code ++ ")"

/-- Base URL of the upstream API (`OPEN_METEO_BASE`). -/
def OPEN_METEO_BASE : String := "https://api.open-meteo.com/v1/forecast"

/-- Declared retry constant (`MAX_RETRIES = 3`); never read by any code path. -/
def MAX_RETRIES : Nat := 3

/-- Declared backoff constant (`RETRY_BACKOFF = 0.5` seconds); never read by
any code path. -/
def RETRY_BACKOFF : ℚ := 1/2

/-- One outbound HTTP GET request as issued by the client: the URL, the query
parameters (values rendered to strings), and the configured timeout in
seconds. -/
structure Request where
  url : String
  params : List (String × String)
  timeout : ℚ

/-- The JSON payload of the upstream `current` object: fields `time`,
`temperature_2m`, `wind_speed_10m`, `weather_code`. -/
structure CurrentPayload where
  time : String
  temperature_2m : ℚ
  wind_speed_10m : ℚ
  weather_code : Int

/-- The JSON payload of the upstream `daily` object: parallel arrays
`time`, `temperature_2m_max`, `temperature_2m_min`, `precipitation_sum`,
`weather_code`. -/
structure DailyPayload where
  time : List String
  temperature_2m_max : List ℚ
  temperature_2m_min : List ℚ
  precipitation_sum : List ℚ
  weather_code : List Int

/-- A parsed upstream JSON body: the optional `error`/`reason` envelope and
the optional `current` and `daily` objects. -/
structure ApiData where
  error : Option Bool
  reason : Option String
  current : Option CurrentPayload
  daily : Option DailyPayload

/-- The outcome the network produces for one request: either an HTTP response
(status code plus parsed JSON body) or a transport-level failure (timeout,
connection error, ...), which in Python surfaces as a generic exception. -/
inductive HttpOutcome where
  | response (status : Int) (body : ApiData)
  | transportFailure (message : String)

/-- The exceptions the weather code can raise, by Python exception class:
`ValueError` (input validation), `httpx.HTTPStatusError` (non-2xx status),
`RuntimeError` (upstream error envelope), and any other exception. -/
inductive WeatherError where
  | valueError (message : String)
  | httpStatusError (status : Int)
  | runtimeError (message : String)
  | otherError (message : String)
deriving DecidableEq

/-- The string representation of an exception, as printed by `f"{exc}"`. -/
def WeatherError.message : WeatherError → String
  | .valueError m => m
  | .httpStatusError s => toString s
  | .runtimeError m => m
  | .otherError m => m

/-- Result of running a client method: the list of HTTP requests it issued,
in order, and its returned value or raised exception. -/
structure TraceResult (α : Type) where
  requests : List Request
  result : Except WeatherError α

/-- The async Open-Meteo client (`class OpenMeteoClient`): its only state is
the HTTP client handle, configured in `__init__` with a fixed timeout. -/
structure OpenMeteoClient where
  timeout : ℚ

/-- `OpenMeteoClient.__init__`: constructs the httpx client with
`httpx.Timeout(10.0)`. -/
def OpenMeteoClient.init : OpenMeteoClient := { timeout := 10 }

/-- `OpenMeteoClient._validate_coordinates`: raises `ValueError` for
out-of-range coordinates, in latitude-then-longitude order. -/
def OpenMeteoClient._validate_coordinates (latitude longitude : ℚ) :
    Except WeatherError Unit :=
  if ¬(-90 ≤ latitude ∧ latitude ≤ 90) then
    .error (.valueError
      ("Latitude must be between -90 and 90, got " ++ toString latitude))
  else if ¬(-180 ≤ longitude ∧ longitude ≤ 180) then
    .error (.valueError
      ("Longitude must be between -180 and 180, got " ++ toString longitude))
  else
    .ok ()

/-- `OpenMeteoClient._get`: performs one GET against `OPEN_METEO_BASE`,
raises `httpx.HTTPStatusError` for a non-2xx status (`raise_for_status`),
then raises `RuntimeError` if the JSON body's `error` field is truthy,
and otherwise returns the parsed body. -/
def OpenMeteoClient._get (c : OpenMeteoClient) (params : List (String × String))
    (net : Request → HttpOutcome) : TraceResult ApiData :=
  let req : Request := { url := OPEN_METEO_BASE, params := params, timeout := c.timeout }
  { requests := [req]
  , result :=
      match net req with
      | .transportFailure msg => .error (.otherError msg)
      | .response status body =>
          if status < 200 ∨ 300 ≤ status then
            .error (.httpStatusError status)
          else if body.error = some true then
            .error (.runtimeError
              ("Open-Meteo API error: " ++ body.reason.getD ("unknown")))
          else
            .ok body }

/-- The query parameters `get_current_weather` sends. -/
def current_params (latitude longitude : ℚ) : List (String × String) :=
  [ ("latitude", toString latitude)
  , ("longitude", toString longitude)
  , ("current", "temperature_2m,wind_speed_10m,weather_code")
  , ("timezone", "UTC") ]

/-- The query parameters `get_forecast` sends. -/
def forecast_params (latitude longitude : ℚ) (days : Int) : List (String × String) :=
  [ ("latitude", toString latitude)
  , ("longitude", toString longitude)
  , ("daily", "temperature_2m_max,temperature_2m_min,precipitation_sum,weather_code")
  , ("timezone", "UTC")
  , ("forecast_days", toString days) ]

/-- `OpenMeteoClient.get_current_weather`: validates coordinates, performs the
GET, and maps the `current` object into a `CurrentWeather` record (a missing
`current` key is a `KeyError`, i.e. a generic exception). -/
def OpenMeteoClient.get_current_weather (c : OpenMeteoClient)
    (latitude longitude : ℚ) (net : Request → HttpOutcome) :
    TraceResult CurrentWeather :=
  match OpenMeteoClient._validate_coordinates latitude longitude with
  | .error e => { requests := [], result := .error e }
  | .ok _ =>
      let r := c._get (current_params latitude longitude) net
      { requests := r.requests
      , result :=
          match r.result with
          | .error e => .error e
          | .ok data =>
              match data.current with
              | none => .error (.otherError ("KeyError: current"))
              | some current =>
                  .ok { temperature := current.temperature_2m
                      , wind_speed := current.wind_speed_10m
                      , weather_code := current.weather_code
                      , conditions := weather_code_to_conditions current.weather_code
                      , timestamp := current.time } }

/-- The body of the forecast loop at index `i`: reads the `i`-th element of
each parallel array (an out-of-range index is an `IndexError`, i.e. a generic
exception) and builds one `DailyForecast`. -/
def build_daily (daily : DailyPayload) (i : Nat) : Except WeatherError DailyForecast :=
  match daily.weather_code[i]?, daily.time[i]?, daily.temperature_2m_min[i]?,
        daily.temperature_2m_max[i]?, daily.precipitation_sum[i]? with
  | some code, some t, some tmin, some tmax, some psum =>
      .ok { forecast_date := t
          , temperature_min := tmin
          , temperature_max := tmax
          , precipitation := psum
          , weather_code := code
          , conditions := weather_code_to_conditions code }
  | _, _, _, _, _ => .error (.otherError ("IndexError"))

/-- The forecast loop over a list of indices: stops at the first raised
exception, otherwise collects the forecasts in order. -/
def build_forecasts_from (daily : DailyPayload) :
    List Nat → Except WeatherError (List DailyForecast)
  | [] => .ok []
  | i :: rest =>
      match build_daily daily i with
      | .error e => .error e
      | .ok d =>
          match build_forecasts_from daily rest with
          | .error e => .error e
          | .ok ds => .ok (d :: ds)

/-- The forecast loop `for i in range(len(daily["time"]))`. -/
def build_forecasts (daily : DailyPayload) : Except WeatherError (List DailyForecast) :=
  build_forecasts_from daily (List.range daily.time.length)

/-- `OpenMeteoClient.get_forecast`: validates coordinates, then the day count
(`1 <= days <= 16`), performs the GET, maps each index of the parallel
`daily` arrays into one `DailyForecast` in order, and wraps the result with
a freshly constructed `WeatherLocation`. -/
def OpenMeteoClient.get_forecast (c : OpenMeteoClient)
    (latitude longitude : ℚ) (days : Int) (net : Request → HttpOutcome) :
    TraceResult ForecastResponse :=
  match OpenMeteoClient._validate_coordinates latitude longitude with
  | .error e => { requests := [], result := .error e }
  | .ok _ =>
      if ¬(1 ≤ days ∧ days ≤ 16) then
        { requests := []
        , result := .error (.valueError
            ("Days must be between 1 and 16, got " ++ toString days)) }
      else
        let r := c._get (forecast_params latitude longitude days) net
        { requests := r.requests
        , result :=
            match r.result with
            | .error e => .error e
            | .ok data =>
                match data.daily with
                | none => .error (.otherError ("KeyError: daily"))
                | some daily =>
                    match build_forecasts daily with
                    | .error e => .error e
                    | .ok forecasts =>
                        match WeatherLocation.construct latitude longitude with
                        | none => .error (.otherError ("ValidationError"))
                        | some loc => .ok { location := loc, forecasts := forecasts } }

/-- The module-level client instance shared by both tool handlers
(`_client = OpenMeteoClient()`). -/
def _client : OpenMeteoClient := OpenMeteoClient.init

/-- The success output of the `get_current_weather` tool handler. -/
def current_weather_text (latitude longitude : ℚ) (weather : CurrentWeather) : String :=
  "Current weather at (" ++ toString latitude ++ ", " ++ toString longitude ++ "):\n" ++
  "  Temperature: " ++ toString weather.temperature ++ "°C\n" ++
  "  Wind Speed: " ++ toString weather.wind_speed ++ " km/h\n" ++
  "  Conditions: " ++ weather.conditions ++
    " (WMO code " ++ toString weather.weather_code ++ ")\n" ++
  "  Observed at: " ++ weather.timestamp

/-- The `get_current_weather` tool handler: calls the client and formats the
result; `except` clauses convert each exception kind into an error string. -/
def get_current_weather (latitude longitude : ℚ)
    (net : Request → HttpOutcome) : String :=
  match (_client.get_current_weather latitude longitude net).result with
  | .ok weather => current_weather_text latitude longitude weather
  | .error (.valueError msg) => "Error: " ++ msg
  | .error (.httpStatusError status) =>
      "Error: Failed to fetch weather data – " ++ toString status
  | .error e => "Error: An unexpected error occurred – " ++ e.message

/-- One line of the `get_forecast` tool handler's output, for one day. -/
def forecast_day_line (day : DailyForecast) : String :=
  "  " ++ day.forecast_date ++ ": " ++ day.conditions ++
  " (WMO " ++ toString day.weather_code ++ "), " ++
  toString day.temperature_min ++ "°C – " ++ toString day.temperature_max ++ "°C, " ++
  "Precipitation: " ++ toString day.precipitation ++ " mm"

/-- The header line of the `get_forecast` tool handler's output (it ends in a
newline of its own, as in the source f-string). -/
def forecast_header (latitude longitude : ℚ) (days : Int) : String :=
  "Weather forecast for (" ++ toString latitude ++ ", " ++ toString longitude ++
  ") – " ++ toString days ++ " day(s):\n"

/-- The `get_forecast` tool handler: calls the client, emits the header line
followed by one line per day joined with newlines; `except` clauses convert
each exception kind into an error string. -/
def get_forecast (latitude longitude : ℚ) (days : Int)
    (net : Request → HttpOutcome) : String :=
  match (_client.get_forecast latitude longitude days net).result with
  | .ok forecast =>
      String.intercalate ("\n")
        (forecast_header latitude longitude days ::
          forecast.forecasts.map forecast_day_line)
  | .error (.valueError msg) => "Error: " ++ msg
  | .error (.httpStatusError status) =>
      "Error: Failed to fetch forecast – " ++ toString status
  | .error e => "Error: An unexpected error occurred – " ++ e.message

/-! Concrete network fixtures, mirroring the mocked responses of the test
suite; used to instantiate the claim theorems at specific inputs. -/

/-- A network that always fails at the transport level. -/
def failingNet : Request → HttpOutcome :=
  fun _ => .transportFailure ("connection reset")

/-- A network answering 400 with a JSON body carrying the upstream error
envelope. -/
def errorEnvelope400Net : Request → HttpOutcome :=
  fun _ => .response 400
    { error := some true, reason := some ("Latitude out of range")
    , current := none, daily := none }

/-- A network answering 200 with a JSON body carrying the upstream error
envelope. -/
def errorEnvelope200Net : Request → HttpOutcome :=
  fun _ => .response 200
    { error := some true, reason := some ("Latitude out of range")
    , current := none, daily := none }

/-- A one-day `daily` payload: the upstream returns a single day. -/
def oneDayDaily : DailyPayload :=
  { time := ["2025-06-15"]
  , temperature_2m_max := [25]
  , temperature_2m_min := [15]
  , precipitation_sum := [0]
  , weather_code := [0] }

/-- A 200 body holding `oneDayDaily`. -/
def oneDayBody : ApiData :=
  { error := none, reason := none, current := none, daily := some oneDayDaily }

/-- A network that always answers 200 with `oneDayBody`. -/
def oneDayNet : Request → HttpOutcome := fun _ => .response 200 oneDayBody

/-- The `ForecastResponse` the client builds from `oneDayDaily` at (0, 0). -/
def oneDayResponse : ForecastResponse :=
  { location := ⟨0, 0, by norm_num, by norm_num, by norm_num, by norm_num⟩
  , forecasts :=
      [ { forecast_date := "2025-06-15", temperature_min := 15
        , temperature_max := 25, precipitation := 0, weather_code := 0
        , conditions := "Clear sky" } ] }

/-- The three-day `daily` payload from the test fixtures. -/
def threeDayDaily : DailyPayload :=
  { time := ["2025-06-15", "2025-06-16", "2025-06-17"]
  , temperature_2m_max := [25, 27, 23]
  , temperature_2m_min := [15, 17, 14]
  , precipitation_sum := [0, 2, 1]
  , weather_code := [0, 63, 1] }

/-- A 200 body holding `threeDayDaily`. -/
def threeDayBody : ApiData :=
  { error := none, reason := none, current := none, daily := some threeDayDaily }

/-- A network that always answers 200 with `threeDayBody`. -/
def threeDayNet : Request → HttpOutcome := fun _ => .response 200 threeDayBody

/-! Helper lemmas shared by the claim theorems. -/

/-- Coordinate validation either succeeds or raises a `ValueError`. -/
theorem validate_cases (lat lon : ℚ) :
    OpenMeteoClient._validate_coordinates lat lon = .ok () ∨
    ∃ m, OpenMeteoClient._validate_coordinates lat lon = .error (.valueError m) := by
  unfold OpenMeteoClient._validate_coordinates
  split
  · exact Or.inr ⟨_, rfl⟩
  · split
    · exact Or.inr ⟨_, rfl⟩
    · exact Or.inl rfl

/-- Coordinate validation succeeds on in-range coordinates. -/
theorem validate_ok_of_bounds {lat lon : ℚ}
    (h1 : -90 ≤ lat) (h2 : lat ≤ 90) (h3 : -180 ≤ lon) (h4 : lon ≤ 180) :
    OpenMeteoClient._validate_coordinates lat lon = .ok () := by
  unfold OpenMeteoClient._validate_coordinates
  rw [if_neg (not_not_intro ⟨h1, h2⟩), if_neg (not_not_intro ⟨h3, h4⟩)]

/-- Coordinate validation raises a `ValueError` on any out-of-range input. -/
theorem validate_fails_of_out_of_range {lat lon : ℚ}
    (h : 90 < |lat| ∨ 180 < |lon|) :
    ∃ m, OpenMeteoClient._validate_coordinates lat lon =
      .error (.valueError m) := by
  unfold OpenMeteoClient._validate_coordinates
  by_cases h1 : -90 ≤ lat ∧ lat ≤ 90
  · have h2 : ¬(-180 ≤ lon ∧ lon ≤ 180) := by
      rcases h with h | h
      · exact absurd (abs_le.mpr ⟨h1.1, h1.2⟩) (not_le.mpr h)
      · exact fun hc => absurd (abs_le.mpr ⟨hc.1, hc.2⟩) (not_le.mpr h)
    rw [if_neg (not_not_intro h1), if_pos h2]
    exact ⟨_, rfl⟩
  · rw [if_pos h1]
    exact ⟨_, rfl⟩

/-- `_get` always issues exactly its one request. -/
theorem get_requests (c : OpenMeteoClient) (params : List (String × String))
    (net : Request → HttpOutcome) :
    (c._get params net).requests =
      [{ url := OPEN_METEO_BASE, params := params, timeout := c.timeout }] := rfl

/-- The result of `_get` when the network delivers an HTTP response. -/
theorem get_result_of_response (c : OpenMeteoClient)
    (params : List (String × String)) (net : Request → HttpOutcome)
    (status : Int) (body : ApiData)
    (hn : net { url := OPEN_METEO_BASE, params := params, timeout := c.timeout } =
      .response status body) :
    (c._get params net).result =
      if status < 200 ∨ 300 ≤ status then
        .error (.httpStatusError status)
      else if body.error = some true then
        .error (.runtimeError
          ("Open-Meteo API error: " ++ body.reason.getD ("unknown")))
      else
        .ok body := by
  simp only [OpenMeteoClient._get, hn]

/-- A value looked up in an association list is one of its mapped values. -/
theorem lookup_mem_snd {l : List (Int × String)} {k : Int} {v : String}
    (h : l.lookup k = some v) : v ∈ l.map Prod.snd := by
  induction l with
  | nil => simp [List.lookup] at h
  | cons p rest ih =>
      obtain ⟨k1, v1⟩ := p
      rw [List.lookup_cons] at h
      cases hk : k == k1
      · rw [hk] at h
        simp only [List.map_cons, List.mem_cons]
        exact Or.inr (ih h)
      · rw [hk] at h
        simp only [Option.some.injEq] at h
        simp [← h]

/-- One loop iteration succeeds when `i` is in range of every parallel array,
and builds the forecast from the `i`-th element of each. -/
theorem build_daily_ok (daily : DailyPayload) (i : Nat)
    (ht : i < daily.time.length)
    (hmx : i < daily.temperature_2m_max.length)
    (hmn : i < daily.temperature_2m_min.length)
    (hp : i < daily.precipitation_sum.length)
    (hc : i < daily.weather_code.length) :
    build_daily daily i = .ok
      { forecast_date := daily.time.getD i ("")
      , temperature_min := daily.temperature_2m_min.getD i 0
      , temperature_max := daily.temperature_2m_max.getD i 0
      , precipitation := daily.precipitation_sum.getD i 0
      , weather_code := daily.weather_code.getD i 0
      , conditions := weather_code_to_conditions (daily.weather_code.getD i 0) } := by
  unfold build_daily
  rw [List.getElem?_eq_getElem ht, List.getElem?_eq_getElem hmx,
      List.getElem?_eq_getElem hmn, List.getElem?_eq_getElem hp,
      List.getElem?_eq_getElem hc]
  simp [List.getD_eq_getElem?_getD, List.getElem?_eq_getElem,
        ht, hmx, hmn, hp, hc]

/-- When every index in the list succeeds, the loop collects the results in
order. -/
theorem build_forecasts_from_ok (daily : DailyPayload) (mk : Nat → DailyForecast) :
    ∀ idxs : List Nat, (∀ i ∈ idxs, build_daily daily i = .ok (mk i)) →
      build_forecasts_from daily idxs = .ok (idxs.map mk) := by
  intro idxs
  induction idxs with
  | nil => intro _; rfl
  | cons i rest ih =>
      intro h
      have h1 := h i (List.mem_cons_self i rest)
      have h2 := ih (fun j hj => h j (List.mem_cons_of_mem i hj))
      simp [build_forecasts_from, h1, h2]

/-- A successful loop produces one forecast per index. -/
theorem build_forecasts_from_ok_length (daily : DailyPayload) :
    ∀ (idxs : List Nat) (l : List DailyForecast),
      build_forecasts_from daily idxs = .ok l → l.length = idxs.length := by
  intro idxs
  induction idxs with
  | nil =>
      intro l h
      simp only [build_forecasts_from] at h
      simp only [Except.ok.injEq] at h
      simp [← h]
  | cons i rest ih =>
      intro l h
      simp only [build_forecasts_from] at h
      cases hd : build_daily daily i with
      | error e => rw [hd] at h; simp at h
      | ok d =>
          rw [hd] at h
          cases hr : build_forecasts_from daily rest with
          | error e => rw [hr] at h; simp at h
          | ok ds =>
              rw [hr] at h
              simp only [Except.ok.injEq] at h
              rw [← h]
              simp [ih ds hr]

/-! Claim theorems. -/

/-- Claim C9: constructing a `WeatherLocation` with latitude `52.52` and
longitude `13.41` and reading back both fields yields exactly `52.52` and
`13.41`, unchanged. -/
theorem weather_location_roundtrip :
    (WeatherLocation.construct 52.52 13.41).map
      (fun loc => (loc.latitude, loc.longitude)) = some (52.52, 13.41) := by
  unfold WeatherLocation.construct
  rw [dif_pos (And.intro (And.intro (by norm_num) (by norm_num))
        (And.intro (by norm_num) (by norm_num)))]
  rfl

/-- Claim C4: `weather_code_to_conditions` is total: every integer code yields
a non-empty string; a code absent from `WMO_CODES` yields a string containing
the literal numeric code; code `2` maps to exactly "Partly cloudy", code `63`
to "Moderate rain", and code `999` to a string containing both "Unknown" and
"999". -/
theorem weather_code_lookup_total (code : Int) :
    weather_code_to_conditions code ≠ "" ∧
    (WMO_CODES.lookup code = none →
      ∃ a b, weather_code_to_conditions code = a ++ toString code ++ b) ∧
    weather_code_to_conditions 2 = "Partly cloudy" ∧
    weather_code_to_conditions 63 = "Moderate rain" ∧
    (∃ a b, weather_code_to_conditions 999 = a ++ "Unknown" ++ b) ∧
    (∃ a b, weather_code_to_conditions 999 = a ++ "999" ++ b) := by
  refine ⟨?_, ?_, by rfl, by rfl, ⟨"", " (code 999)", by rfl⟩,
          ⟨"Unknown (code ", ")", by rfl⟩⟩
  · cases h : WMO_CODES.lookup code with
    | some v =>
        have hv : v ∈ WMO_CODES.map Prod.snd := lookup_mem_snd h
        have hne : ∀ s ∈ WMO_CODES.map Prod.snd, s ≠ "" := by decide
        unfold weather_code_to_conditions
        rw [h]
        exact hne v hv
    | none =>
        unfold weather_code_to_conditions
        rw [h]
        intro h0
        have hlen := congrArg String.length h0
        rw [String.length_append, String.length_append] at hlen
        have h14 : String.length ("Unknown (code ") = 14 := by decide
        have hrp : String.length (")") = 1 := by decide
        have hem : String.length ("") = 0 := by decide
        rw [h14, hrp, hem] at hlen
        omega
  · intro h
    unfold weather_code_to_conditions
    rw [h]
    exact ⟨"Unknown (code ", ")", rfl⟩

/-- Claim C2: for every latitude and longitude with |lat| > 90 or |lon| > 180,
both client methods fail with an invalid-input error before any network call
is attempted; conversely, coordinates with latitude in [-90, 90] and
longitude in [-180, 180] (bounds inclusive) pass validation. -/
theorem coordinates_validated_before_network (lat lon : ℚ) (days : Int)
    (net : Request → HttpOutcome) :
    ((90 < |lat| ∨ 180 < |lon|) →
      (∃ m, _client.get_current_weather lat lon net =
        { requests := [], result := .error (.valueError m) }) ∧
      (∃ m, _client.get_forecast lat lon days net =
        { requests := [], result := .error (.valueError m) })) ∧
    ((-90 ≤ lat ∧ lat ≤ 90 ∧ -180 ≤ lon ∧ lon ≤ 180) →
      OpenMeteoClient._validate_coordinates lat lon = .ok ()) := by
  constructor
  · intro h
    obtain ⟨m, hm⟩ := validate_fails_of_out_of_range h
    constructor
    · exact ⟨m, by simp [OpenMeteoClient.get_current_weather, hm]⟩
    · exact ⟨m, by simp [OpenMeteoClient.get_forecast, hm]⟩
  · intro h
    exact validate_ok_of_bounds h.1 h.2.1 h.2.2.1 h.2.2.2

/-- Witness for C2 at latitude -91 (out of range) with a concrete network. -/
theorem coordinates_validated_before_network_witness :
    (90 < |(-91 : ℚ)| ∨ 180 < |(0 : ℚ)|) ∧
    ((∃ m, _client.get_current_weather (-91) 0 failingNet =
        { requests := [], result := .error (.valueError m) }) ∧
     (∃ m, _client.get_forecast (-91) 0 7 failingNet =
        { requests := [], result := .error (.valueError m) })) :=
  ⟨Or.inl (by decide),
   (coordinates_validated_before_network (-91) 0 7 failingNet).1
     (Or.inl (by decide))⟩

/-- Claim C3: for every integer `days` outside [1, 16], the client forecast
method fails with an invalid-input error before any network call; for `days`
in [1, 16] the days check passes, so with in-range coordinates the network
call is reached. -/
theorem forecast_days_validated (lat lon : ℚ) (days : Int)
    (net : Request → HttpOutcome) :
    ((days < 1 ∨ 16 < days) →
      ∃ m, _client.get_forecast lat lon days net =
        { requests := [], result := .error (.valueError m) }) ∧
    ((1 ≤ days ∧ days ≤ 16) →
      (-90 ≤ lat ∧ lat ≤ 90 ∧ -180 ≤ lon ∧ lon ≤ 180) →
      (_client.get_forecast lat lon days net).requests.length = 1) := by
  constructor
  · intro h
    rcases validate_cases lat lon with hv | ⟨m, hv⟩
    · have hd : ¬(1 ≤ days ∧ days ≤ 16) := by omega
      refine ⟨"Days must be between 1 and 16, got " ++ toString days, ?_⟩
      simp [OpenMeteoClient.get_forecast, hv, hd]
    · exact ⟨m, by simp [OpenMeteoClient.get_forecast, hv]⟩
  · intro hd hb
    have hv := validate_ok_of_bounds hb.1 hb.2.1 hb.2.2.1 hb.2.2.2
    simp [OpenMeteoClient.get_forecast, hv, hd, OpenMeteoClient._get]

/-- Witness for C3 at days = 20 and days = 7 with concrete inputs. -/
theorem forecast_days_validated_witness :
    (∃ m, _client.get_forecast 0 0 20 failingNet =
      { requests := [], result := .error (.valueError m) }) ∧
    (_client.get_forecast 0 0 7 failingNet).requests.length = 1 :=
  ⟨(forecast_days_validated 0 0 20 failingNet).1 (Or.inr (by decide)),
   (forecast_days_validated 0 0 7 failingNet).2 (by decide) (by decide)⟩

/-- Witness for C4 at the unmapped code 999. -/
theorem weather_code_lookup_total_witness :
    WMO_CODES.lookup 999 = none ∧
    (∃ a b, weather_code_to_conditions 999 = a ++ toString (999 : Int) ++ b) :=
  ⟨by rfl, (weather_code_lookup_total 999).2.1 (by rfl)⟩

/-- Claim C1: whatever the outcome of the underlying client call
(invalid-input error, HTTP-status error, upstream error, or any other
exception), each tool handler returns a string beginning with "Error: " on
any client failure; in particular, for every non-2xx upstream response the
handler returns such an error string. In this embedding the handlers are
total `String`-valued functions, mirroring the catch-all `except` clauses:
they never raise. -/
theorem tool_handlers_return_error_strings (lat lon : ℚ) (days : Int)
    (net : Request → HttpOutcome) :
    (∀ e, (_client.get_current_weather lat lon net).result = .error e →
      ∃ rest, get_current_weather lat lon net = "Error: " ++ rest) ∧
    (∀ e, (_client.get_forecast lat lon days net).result = .error e →
      ∃ rest, get_forecast lat lon days net = "Error: " ++ rest) ∧
    (∀ status body, (∀ req, net req = .response status body) →
      (status < 200 ∨ 300 ≤ status) →
      (∃ rest, get_current_weather lat lon net = "Error: " ++ rest) ∧
      (∃ rest, get_forecast lat lon days net = "Error: " ++ rest)) := by
  have hcur : ∀ e, (_client.get_current_weather lat lon net).result = .error e →
      ∃ rest, get_current_weather lat lon net = "Error: " ++ rest := by
    intro e he
    unfold get_current_weather
    rw [he]
    cases e with
    | valueError m => exact ⟨m, rfl⟩
    | httpStatusError s =>
        exact ⟨"Failed to fetch weather data – " ++ toString s,
          by simp [← String.append_assoc, WeatherError.message]⟩
    | runtimeError m =>
        exact ⟨"An unexpected error occurred – " ++ m,
          by simp [← String.append_assoc, WeatherError.message]⟩
    | otherError m =>
        exact ⟨"An unexpected error occurred – " ++ m,
          by simp [← String.append_assoc, WeatherError.message]⟩
  have hfor : ∀ e, (_client.get_forecast lat lon days net).result = .error e →
      ∃ rest, get_forecast lat lon days net = "Error: " ++ rest := by
    intro e he
    unfold get_forecast
    rw [he]
    cases e with
    | valueError m => exact ⟨m, rfl⟩
    | httpStatusError s =>
        exact ⟨"Failed to fetch forecast – " ++ toString s,
          by simp [← String.append_assoc, WeatherError.message]⟩
    | runtimeError m =>
        exact ⟨"An unexpected error occurred – " ++ m,
          by simp [← String.append_assoc, WeatherError.message]⟩
    | otherError m =>
        exact ⟨"An unexpected error occurred – " ++ m,
          by simp [← String.append_assoc, WeatherError.message]⟩
  refine ⟨hcur, hfor, ?_⟩
  intro status body hnet hs
  constructor
  · rcases validate_cases lat lon with hv | ⟨m, hv⟩
    · refine hcur (.httpStatusError status) ?_
      simp only [OpenMeteoClient.get_current_weather, hv]
      rw [get_result_of_response _ _ _ _ _ (hnet _), if_pos hs]
    · exact hcur (.valueError m) (by simp [OpenMeteoClient.get_current_weather, hv])
  · rcases validate_cases lat lon with hv | ⟨m, hv⟩
    · by_cases hd : 1 ≤ days ∧ days ≤ 16
      · refine hfor (.httpStatusError status) ?_
        simp only [OpenMeteoClient.get_forecast, hv]
        rw [if_neg (not_not_intro hd)]
        rw [get_result_of_response _ _ _ _ _ (hnet _), if_pos hs]
      · refine hfor (.valueError
          ("Days must be between 1 and 16, got " ++ toString days)) ?_
        simp [OpenMeteoClient.get_forecast, hv, hd]
    · exact hfor (.valueError m) (by simp [OpenMeteoClient.get_forecast, hv])

/-- Witness for C1: the current-weather handler on an out-of-range latitude
with a concrete network, and both handlers on a concrete 503 response. -/
theorem tool_handlers_return_error_strings_witness :
    (∃ rest, get_current_weather 200 0 failingNet = "Error: " ++ rest) ∧
    ((∃ rest, get_current_weather 0 0 (fun _ =>
        .response 503 { error := none, reason := none, current := none, daily := none }) =
        "Error: " ++ rest) ∧
     (∃ rest, get_forecast 0 0 3 (fun _ =>
        .response 503 { error := none, reason := none, current := none, daily := none }) =
        "Error: " ++ rest)) :=
  ⟨(tool_handlers_return_error_strings 200 0 3 failingNet).1
      (.valueError ("Latitude must be between -90 and 90, got " ++ toString (200 : ℚ)))
      (by rfl),
   (tool_handlers_return_error_strings 0 0 3 (fun _ =>
        .response 503 { error := none, reason := none, current := none, daily := none })).2.2
      503 { error := none, reason := none, current := none, daily := none }
      (fun _ => rfl) (by decide)⟩

/-- Claim C10: the `WeatherLocation` model itself enforces the coordinate
bounds at construction, independently of the client's validation: pydantic
construction fails on out-of-range input, so every `WeatherLocation` that
exists — including the `location` field of every `ForecastResponse` —
satisfies the bounds. -/
theorem weather_location_bounds_invariant :
    (∀ loc : WeatherLocation,
      -90 ≤ loc.latitude ∧ loc.latitude ≤ 90 ∧
      -180 ≤ loc.longitude ∧ loc.longitude ≤ 180) ∧
    (∀ lat lon : ℚ, (90 < |lat| ∨ 180 < |lon|) →
      WeatherLocation.construct lat lon = none) ∧
    (∀ r : ForecastResponse,
      -90 ≤ r.location.latitude ∧ r.location.latitude ≤ 90 ∧
      -180 ≤ r.location.longitude ∧ r.location.longitude ≤ 180) := by
  have hloc : ∀ loc : WeatherLocation,
      -90 ≤ loc.latitude ∧ loc.latitude ≤ 90 ∧
      -180 ≤ loc.longitude ∧ loc.longitude ≤ 180 :=
    fun loc => ⟨loc.latitude_ge, loc.latitude_le, loc.longitude_ge, loc.longitude_le⟩
  refine ⟨hloc, ?_, fun r => hloc r.location⟩
  intro lat lon h
  unfold WeatherLocation.construct
  rw [dif_neg]
  intro hc
  rcases h with h | h
  · exact absurd (abs_le.mpr ⟨hc.1.1, hc.1.2⟩) (not_le.mpr h)
  · exact absurd (abs_le.mpr ⟨hc.2.1, hc.2.2⟩) (not_le.mpr h)

/-- Witness for C10: a concrete location satisfies the bounds, and
construction at latitude 100 fails. -/
theorem weather_location_bounds_invariant_witness :
    (-90 ≤ oneDayResponse.location.latitude ∧
     oneDayResponse.location.latitude ≤ 90 ∧
     -180 ≤ oneDayResponse.location.longitude ∧
     oneDayResponse.location.longitude ≤ 180) ∧
    WeatherLocation.construct 100 0 = none :=
  ⟨weather_location_bounds_invariant.2.2 oneDayResponse,
   weather_location_bounds_invariant.2.1 100 0 (Or.inl (by decide))⟩

/-- Claim C7 fails as stated: a 400 response whose JSON body carries the
error envelope makes the client fail with the HTTP-status error raised by
`raise_for_status` — reached before the envelope check — not with the
upstream-semantic `RuntimeError`. -/
theorem upstream_error_status_counterexample :
    (_client.get_current_weather 0 0 errorEnvelope400Net).result =
      .error (.httpStatusError 400) ∧
    WeatherError.httpStatusError 400 ≠
      WeatherError.runtimeError ("Open-Meteo API error: Latitude out of range") :=
  ⟨by rfl, by decide⟩

/-- Claim C7 amended: for every 2xx HTTP response whose JSON body carries the
error envelope (`error` truthy), both client methods fail with the
upstream-error `RuntimeError` embedding the reason, rather than returning a
weather record. -/
theorem upstream_error_envelope (lat lon : ℚ) (days : Int) (status : Int)
    (body : ApiData) (net : Request → HttpOutcome)
    (hnet : ∀ req, net req = .response status body)
    (hlat : -90 ≤ lat ∧ lat ≤ 90) (hlon : -180 ≤ lon ∧ lon ≤ 180)
    (hdays : 1 ≤ days ∧ days ≤ 16)
    (h2xx : 200 ≤ status ∧ status < 300)
    (herr : body.error = some true) :
    (_client.get_current_weather lat lon net).result =
      .error (.runtimeError
        ("Open-Meteo API error: " ++ body.reason.getD ("unknown"))) ∧
    (_client.get_forecast lat lon days net).result =
      .error (.runtimeError
        ("Open-Meteo API error: " ++ body.reason.getD ("unknown"))) := by
  have hv := validate_ok_of_bounds hlat.1 hlat.2 hlon.1 hlon.2
  have hs : ¬(status < 200 ∨ 300 ≤ status) := by omega
  constructor
  · simp only [OpenMeteoClient.get_current_weather, hv]
    rw [get_result_of_response _ _ _ _ _ (hnet _), if_neg hs, if_pos herr]
  · simp only [OpenMeteoClient.get_forecast, hv]
    rw [if_neg (not_not_intro hdays)]
    rw [get_result_of_response _ _ _ _ _ (hnet _), if_neg hs, if_pos herr]

/-- Witness for C7 (amended) on a concrete 200 response carrying the error
envelope. -/
theorem upstream_error_envelope_witness :
    (_client.get_current_weather 0 0 errorEnvelope200Net).result =
      .error (.runtimeError ("Open-Meteo API error: Latitude out of range")) ∧
    (_client.get_forecast 0 0 7 errorEnvelope200Net).result =
      .error (.runtimeError ("Open-Meteo API error: Latitude out of range")) :=
  upstream_error_envelope 0 0 7 200
    { error := some true, reason := some ("Latitude out of range")
    , current := none, daily := none }
    errorEnvelope200Net (fun _ => rfl)
    (by decide) (by decide) (by decide) (by decide) rfl

/-- Claim C8 fails as stated: invoking the client with an out-of-range
latitude issues zero HTTP requests, not exactly one. -/
theorem single_request_counterexample :
    (_client.get_current_weather 200 0 failingNet).requests.length = 0 ∧
    (0 : Nat) ≠ 1 :=
  ⟨by rfl, by decide⟩

/-- Claim C8 amended: every client invocation issues at most one HTTP GET —
exactly one when input validation passes — always against `OPEN_METEO_BASE`
with the fixed 10-second timeout; a failing request is never reissued (no
retry, despite the declared `MAX_RETRIES` and `RETRY_BACKOFF` constants). -/
theorem at_most_one_request (lat lon : ℚ) (days : Int)
    (net : Request → HttpOutcome) :
    ((_client.get_current_weather lat lon net).requests.length ≤ 1 ∧
     (_client.get_forecast lat lon days net).requests.length ≤ 1) ∧
    (∀ req ∈ (_client.get_current_weather lat lon net).requests,
      req.timeout = 10 ∧ req.url = OPEN_METEO_BASE) ∧
    (∀ req ∈ (_client.get_forecast lat lon days net).requests,
      req.timeout = 10 ∧ req.url = OPEN_METEO_BASE) ∧
    ((-90 ≤ lat ∧ lat ≤ 90 ∧ -180 ≤ lon ∧ lon ≤ 180) →
      (_client.get_current_weather lat lon net).requests.length = 1 ∧
      ((1 ≤ days ∧ days ≤ 16) →
        (_client.get_forecast lat lon days net).requests.length = 1)) := by
  have hc : (_client.get_current_weather lat lon net).requests = [] ∨
      (_client.get_current_weather lat lon net).requests =
        [{ url := OPEN_METEO_BASE, params := current_params lat lon, timeout := 10 }] := by
    rcases validate_cases lat lon with hv | ⟨m, hv⟩
    · right
      simp [OpenMeteoClient.get_current_weather, hv, OpenMeteoClient._get]
      rfl
    · left
      simp [OpenMeteoClient.get_current_weather, hv]
  have hf : (_client.get_forecast lat lon days net).requests = [] ∨
      (_client.get_forecast lat lon days net).requests =
        [{ url := OPEN_METEO_BASE, params := forecast_params lat lon days, timeout := 10 }] := by
    rcases validate_cases lat lon with hv | ⟨m, hv⟩
    · by_cases hd : 1 ≤ days ∧ days ≤ 16
      · right
        simp [OpenMeteoClient.get_forecast, hv, hd, OpenMeteoClient._get]
        rfl
      · left
        simp [OpenMeteoClient.get_forecast, hv, hd]
    · left
      simp [OpenMeteoClient.get_forecast, hv]
  refine ⟨⟨?_, ?_⟩, ?_, ?_, ?_⟩
  · rcases hc with h | h <;> simp [h]
  · rcases hf with h | h <;> simp [h]
  · rcases hc with h | h <;> rw [h] <;> intro req hreq <;> simp at hreq
    simp [hreq]
  · rcases hf with h | h <;> rw [h] <;> intro req hreq <;> simp at hreq
    simp [hreq]
  · intro hb
    have hv := validate_ok_of_bounds hb.1 hb.2.1 hb.2.2.1 hb.2.2.2
    constructor
    · simp [OpenMeteoClient.get_current_weather, hv, OpenMeteoClient._get]
    · intro hd
      simp [OpenMeteoClient.get_forecast, hv, hd, OpenMeteoClient._get]

/-- Witness for C8 (amended): with in-range inputs and a concrete failing
network, each method issues exactly one request. -/
theorem at_most_one_request_witness :
    (_client.get_current_weather 0 0 failingNet).requests.length = 1 ∧
    (_client.get_forecast 0 0 7 failingNet).requests.length = 1 :=
  ⟨((at_most_one_request 0 0 7 failingNet).2.2.2 (by decide)).1,
   ((at_most_one_request 0 0 7 failingNet).2.2.2 (by decide)).2 (by decide)⟩

/-- Claim C6 fails as stated: requesting days = 3 while the upstream returns
a single-day `daily` payload yields a successful response holding 1 forecast,
not 3 — the code never checks the upstream array length against `days`. -/
theorem forecast_length_counterexample :
    ((_client.get_forecast 0 0 3 oneDayNet).result.map
      (fun r => r.forecasts.length)) = .ok 1 ∧ (1 : Nat) ≠ 3 :=
  ⟨by rfl, by decide⟩

/-- Claim C6 amended: every successful `get_forecast` call returns exactly
one `DailyForecast` per entry of the upstream `daily.time` array, in order;
hence exactly one per requested day whenever the upstream returns exactly
`days` entries. -/
theorem forecast_length_matches_upstream (lat lon : ℚ) (days : Int)
    (status : Int) (body : ApiData) (d : DailyPayload) (r : ForecastResponse)
    (net : Request → HttpOutcome)
    (hnet : ∀ req, net req = .response status body)
    (hdaily : body.daily = some d)
    (hok : (_client.get_forecast lat lon days net).result = .ok r) :
    r.forecasts.length = d.time.length ∧
    (d.time.length = days.toNat → r.forecasts.length = days.toNat) := by
  suffices h : r.forecasts.length = d.time.length by
    exact ⟨h, fun he => by rw [h, he]⟩
  rcases validate_cases lat lon with hv | ⟨m, hv⟩
  · by_cases hd : 1 ≤ days ∧ days ≤ 16
    · simp only [OpenMeteoClient.get_forecast, hv] at hok
      rw [if_neg (not_not_intro hd)] at hok
      rw [get_result_of_response _ _ _ _ _ (hnet _)] at hok
      by_cases hs : status < 200 ∨ 300 ≤ status
      · rw [if_pos hs] at hok
        simp at hok
      · rw [if_neg hs] at hok
        by_cases herr : body.error = some true
        · rw [if_pos herr] at hok
          simp at hok
        · rw [if_neg herr] at hok
          simp only [hdaily] at hok
          cases hb : build_forecasts d with
          | error e => rw [hb] at hok; simp at hok
          | ok l =>
              rw [hb] at hok
              cases hcons : WeatherLocation.construct lat lon with
              | none => rw [hcons] at hok; simp at hok
              | some loc =>
                  rw [hcons] at hok
                  simp only [Except.ok.injEq] at hok
                  rw [← hok]
                  have hlen := build_forecasts_from_ok_length d
                    (List.range d.time.length) l hb
                  simpa [List.length_range] using hlen
    · simp [OpenMeteoClient.get_forecast, hv, hd] at hok
  · simp [OpenMeteoClient.get_forecast, hv] at hok

/-- Witness for C6 (amended): upstream returns one day for a one-day
request. -/
theorem forecast_length_matches_upstream_witness :
    oneDayResponse.forecasts.length = oneDayDaily.time.length ∧
    (oneDayDaily.time.length = (1 : Int).toNat →
      oneDayResponse.forecasts.length = (1 : Int).toNat) :=
  forecast_length_matches_upstream 0 0 1 200 oneDayBody oneDayDaily
    oneDayResponse oneDayNet (fun _ => rfl) rfl (by rfl)

/-- Claim C5: (a) for every `daily` object of parallel arrays of equal
length, `get_forecast`'s loop maps each index `i` into exactly one
`DailyForecast` built from the `i`-th element of each array, preserving
array order; (b) for a 3-day response, the forecast handler output is the
header followed by one line per day in input order, each line (built by
`forecast_day_line`) embedding that day's min temperature, max temperature
and condition string. -/
theorem forecast_mapping_and_three_day_output :
    (∀ daily : DailyPayload,
      daily.temperature_2m_max.length = daily.time.length →
      daily.temperature_2m_min.length = daily.time.length →
      daily.precipitation_sum.length = daily.time.length →
      daily.weather_code.length = daily.time.length →
      ∃ l, build_forecasts daily = .ok l ∧ l.length = daily.time.length ∧
        ∀ i, i < daily.time.length →
          l[i]? = some
            { forecast_date := daily.time.getD i ("")
            , temperature_min := daily.temperature_2m_min.getD i 0
            , temperature_max := daily.temperature_2m_max.getD i 0
            , precipitation := daily.precipitation_sum.getD i 0
            , weather_code := daily.weather_code.getD i 0
            , conditions :=
                weather_code_to_conditions (daily.weather_code.getD i 0) }) ∧
    (∀ (lat lon : ℚ) (net : Request → HttpOutcome) (body : ApiData)
       (t0 t1 t2 : String) (mx0 mx1 mx2 mn0 mn1 mn2 p0 p1 p2 : ℚ)
       (c0 c1 c2 : Int),
      (-90 ≤ lat ∧ lat ≤ 90) → (-180 ≤ lon ∧ lon ≤ 180) →
      (∀ req, net req = .response 200 body) →
      body.error ≠ some true →
      body.daily = some
        { time := [t0, t1, t2]
        , temperature_2m_max := [mx0, mx1, mx2]
        , temperature_2m_min := [mn0, mn1, mn2]
        , precipitation_sum := [p0, p1, p2]
        , weather_code := [c0, c1, c2] } →
      get_forecast lat lon 3 net =
        forecast_header lat lon 3 ++ "\n" ++
        forecast_day_line
          { forecast_date := t0, temperature_min := mn0, temperature_max := mx0
          , precipitation := p0, weather_code := c0
          , conditions := weather_code_to_conditions c0 } ++ "\n" ++
        forecast_day_line
          { forecast_date := t1, temperature_min := mn1, temperature_max := mx1
          , precipitation := p1, weather_code := c1
          , conditions := weather_code_to_conditions c1 } ++ "\n" ++
        forecast_day_line
          { forecast_date := t2, temperature_min := mn2, temperature_max := mx2
          , precipitation := p2, weather_code := c2
          , conditions := weather_code_to_conditions c2 }) := by
  constructor
  · intro daily hmx hmn hp hc
    refine ⟨(List.range daily.time.length).map (fun i =>
      { forecast_date := daily.time.getD i ("")
      , temperature_min := daily.temperature_2m_min.getD i 0
      , temperature_max := daily.temperature_2m_max.getD i 0
      , precipitation := daily.precipitation_sum.getD i 0
      , weather_code := daily.weather_code.getD i 0
      , conditions :=
          weather_code_to_conditions (daily.weather_code.getD i 0) }), ?_, ?_, ?_⟩
    · refine build_forecasts_from_ok daily _ _ ?_
      intro i hi
      have ht : i < daily.time.length := List.mem_range.mp hi
      exact build_daily_ok daily i ht
        (by rw [hmx]; exact ht) (by rw [hmn]; exact ht)
        (by rw [hp]; exact ht) (by rw [hc]; exact ht)
    · simp
    · intro i hi
      rw [List.getElem?_map, List.getElem?_range hi]
      rfl
  · intro lat lon net body t0 t1 t2 mx0 mx1 mx2 mn0 mn1 mn2 p0 p1 p2 c0 c1 c2
      hlat hlon hnet herr hdaily
    have hv := validate_ok_of_bounds hlat.1 hlat.2 hlon.1 hlon.2
    have hd : (1 : Int) ≤ 3 ∧ (3 : Int) ≤ 16 := by decide
    have hcons : WeatherLocation.construct lat lon =
        some ⟨lat, lon, hlat.1, hlat.2, hlon.1, hlon.2⟩ := by
      unfold WeatherLocation.construct
      rw [dif_pos ⟨⟨hlat.1, hlat.2⟩, ⟨hlon.1, hlon.2⟩⟩]
    have hb : build_forecasts
        { time := [t0, t1, t2]
        , temperature_2m_max := [mx0, mx1, mx2]
        , temperature_2m_min := [mn0, mn1, mn2]
        , precipitation_sum := [p0, p1, p2]
        , weather_code := [c0, c1, c2] } = .ok
        [ { forecast_date := t0, temperature_min := mn0, temperature_max := mx0
          , precipitation := p0, weather_code := c0
          , conditions := weather_code_to_conditions c0 }
        , { forecast_date := t1, temperature_min := mn1, temperature_max := mx1
          , precipitation := p1, weather_code := c1
          , conditions := weather_code_to_conditions c1 }
        , { forecast_date := t2, temperature_min := mn2, temperature_max := mx2
          , precipitation := p2, weather_code := c2
          , conditions := weather_code_to_conditions c2 } ] := by rfl
    unfold get_forecast
    simp only [OpenMeteoClient.get_forecast, hv]
    rw [if_neg (not_not_intro hd)]
    rw [get_result_of_response _ _ _ _ _ (hnet _)]
    rw [if_neg (by decide : ¬((200 : Int) < 200 ∨ 300 ≤ (200 : Int))), if_neg herr]
    simp only [hdaily, hb, hcons]
    simp [String.intercalate, String.intercalate.go, String.append_assoc]

/-- Witness for C5 on the three-day test fixture at (0, 0). -/
theorem forecast_mapping_and_three_day_output_witness :
    get_forecast 0 0 3 threeDayNet =
      forecast_header 0 0 3 ++ "\n" ++
      forecast_day_line
        { forecast_date := "2025-06-15", temperature_min := 15
        , temperature_max := 25, precipitation := 0, weather_code := 0
        , conditions := weather_code_to_conditions 0 } ++ "\n" ++
      forecast_day_line
        { forecast_date := "2025-06-16", temperature_min := 17
        , temperature_max := 27, precipitation := 2, weather_code := 63
        , conditions := weather_code_to_conditions 63 } ++ "\n" ++
      forecast_day_line
        { forecast_date := "2025-06-17", temperature_min := 14
        , temperature_max := 23, precipitation := 1, weather_code := 1
        , conditions := weather_code_to_conditions 1 } :=
  forecast_mapping_and_three_day_output.2 0 0 threeDayNet threeDayBody
    ("2025-06-15") ("2025-06-16") ("2025-06-17") 25 27 23 15 17 14 0 2 1 0 63 1
    (by decide) (by decide) (fun _ => rfl) (by decide) rfl
